import Mathlib

/-!
Verification of the `Zyqsempai/serving` performance-test fragment.

The development shallowly embeds two source files:

* `src/unnamed/part_000` — the `performance` package file holding
  `TestScaleRevisionByLoad` / `scaleRevisionByLoad`: a load-driven
  scale-measurement harness.  The informer callback, the per-tier control
  flow and the report-record emission are translated directly; the
  external collaborators (cluster setup, service creation, ingress
  lookup, readiness probe, fortio load generator, endpoints informer
  delivery) are represented by an environment record carrying their
  outcomes.
* `src/pkg/apis/networking/v1alpha1/serverlessservice_lifecycle.go` —
  condition-lifecycle helpers over `apis.ConditionSet`.

Machine integers (`int`, `int64`, Go `time.Duration` in nanoseconds) are
modelled as `Int`; `float64`/`float32` quantities are modelled exactly as
`ℚ` (the claims under study concern which values are combined, not IEEE
rounding).
-/

namespace Serving

/-! ## Go string and numeric primitives -/

/-- `sub.isPrefixOf s || ...` scan: Go `strings.Contains(s, substr)` on
character lists (`true` when `sub` occurs contiguously inside `s`,
including the empty substring). -/
def listContainsSub (sub : List Char) : List Char → Bool
  | [] => sub.isEmpty
  | c :: tl => sub.isPrefixOf (c :: tl) || listContainsSub sub tl

/-- Go `strings.Contains(s, substr)`. -/
def goStringContains (s substr : String) : Bool :=
  listContainsSub substr.toList s.toList

/-- Go conversion `int(x)` from a floating-point value: truncation toward
zero (the denominator of a `ℚ` is positive, so `Int.tdiv` on the
numerator and denominator is exactly round-toward-zero). -/
def goTruncInt (q : ℚ) : Int :=
  Int.tdiv q.num q.den

/-- Nanoseconds in Go's `time.Second`. -/
def nsPerSecond : Int := 1000000000

example : goStringContains "hello-world-endpoints" "world" = true := by decide
example : goStringContains "helloworld" "worlds" = false := by decide
example : goStringContains "abc" "" = true := by decide
example : goTruncInt (99 : ℚ) = 99 := by decide
example : goTruncInt ⟨99, 10, by decide, by decide⟩ = 9 := by decide
example : goTruncInt ⟨-99, 10, by decide, by decide⟩ = -9 := by decide

/-! ## Scale events and the informer update handler
(src/unnamed/part_000 lines 55-59 and 132-150) -/

/-- `scaleEvent` (src lines 55-59); `timestamp` is `time.Time` in
nanoseconds. -/
structure ScaleEvent where
  oldScale : Int
  newScale : Int
  timestamp : Int
deriving Repr, DecidableEq

/-- One endpoints-update notification as seen by the informer's
`UpdateFunc(oldObj, newObj)` (src lines 133-149), projected to the fields
the handler reads: the new object's name, the two ready-address counts,
and the wall-clock instant `time.Now()` observed at delivery. -/
structure EndpointsUpdate where
  name : String
  oldReady : Int
  newReady : Int
  now : Int
deriving Repr, DecidableEq

/-- The body of the `UpdateFunc` handler (src lines 133-149): when the
endpoints object's name contains the service name and the ready-address
count changed, append a `scaleEvent` to the log; otherwise leave the log
alone. -/
def processUpdate (serviceName : String) (log : List ScaleEvent)
    (u : EndpointsUpdate) : List ScaleEvent :=
  if goStringContains u.name serviceName then
    if u.newReady ≠ u.oldReady then
      log ++ [⟨u.oldReady, u.newReady, u.now⟩]
    else log
  else log

/-- Delivering a sequence of update notifications to the handler,
starting from a given log state. -/
def deliverUpdates (serviceName : String) (log : List ScaleEvent)
    (us : List EndpointsUpdate) : List ScaleEvent :=
  us.foldl (processUpdate serviceName) log

example :
    deliverUpdates "svc" []
      [⟨"svc-x", 0, 1, 5⟩, ⟨"svc-x", 1, 1, 6⟩, ⟨"other", 1, 7, 7⟩, ⟨"svc-x", 1, 3, 9⟩]
      = [⟨0, 1, 5⟩, ⟨1, 3, 9⟩] := by decide

/-! ## Package constants (src/unnamed/part_000 lines 46-53) -/

/-- `qpsPerClient = 10` (src line 47). -/
def qpsPerClient : Int := 10

/-- `iterationDuration = 60 * time.Second` in nanoseconds (src line 48). -/
def iterationDuration : Int := 60 * nsPerSecond

/-- `processingTimeMillis = 100` (src line 49). -/
def processingTimeMillis : Int := 100

/-- `targetConcurrency = 10` (src line 50). -/
def targetConcurrencyConst : Int := 10

/-- `concurrentClients = []int{10, 20, 40, 80, 160, 320}` (src line 53). -/
def concurrentClients : List Int := [10, 20, 40, 80, 160, 320]

/-! ## The fortio load-generator response (external collaborator)

`loadgenerator.GeneratorResults` as read by the harness:
`resp.Result[0].DurationHistogram.Count`, `resp.Result[0].ActualQPS`,
`resp.Result[0].StartTime`, `resp.Result[0].DurationHistogram.Percentiles`
(each entry has a `Percentile` and a `Value` in seconds) and
`resp.ErrorsPercentage(0)`. -/

/-- One entry of `DurationHistogram.Percentiles`. -/
structure HistogramPercentile where
  percentile : ℚ
  value : ℚ
deriving Repr, DecidableEq

/-- The fields of one `resp.Result` entry that the harness reads.
`startTime` is `time.Time` in nanoseconds. -/
structure LoadResultEntry where
  durationHistogramCount : Int
  actualQPS : ℚ
  startTime : Int
  percentiles : List HistogramPercentile
deriving Repr, DecidableEq

/-- The fields of the load-generator response that the harness reads. -/
structure LoadResponse where
  result : List LoadResultEntry
  errorsPercentage : ℚ
deriving Repr, DecidableEq

/-! ## Test-case records (lines 175-193)

`perf.CreatePerfTestCase(value, name, testName)` yields one
`junit.TestCase` per metric.  Record names are kept structured here (the
spec's §9 notes the string encoding is a serialization convenience);
`flattenRecordName` reproduces the exact strings the source builds with
`fmt.Sprintf`. -/

/-- The structured name of an emitted test-case record. -/
inductive RecordName where
  | requestCount
  | requestedQPS
  | actualQPS
  | errorsPercentage
  | scaleFromTo (oldScale newScale : Int)
  | latencyPercentile (p : Int)
deriving Repr, DecidableEq

/-- Go `fmt.Sprintf("%02d", n)`: decimal digits, zero-padded to width 2. -/
def pad2 (n : Int) : String :=
  if 0 ≤ n ∧ n < 10 then "0" ++ toString n else toString n

/-- The name string the source builds for each record
(`"requestCount"`, …, `fmt.Sprintf("scale-from-%02d-to-%02d(seconds)", old, new)`,
`fmt.Sprintf("p%d(ms)", int(p.Percentile))`). -/
def flattenRecordName : RecordName → String
  | .requestCount => "requestCount"
  | .requestedQPS => "requestedQPS"
  | .actualQPS => "actualQPS"
  | .errorsPercentage => "errorsPercentage"
  | .scaleFromTo a b => "scale-from-" ++ pad2 a ++ "-to-" ++ pad2 b ++ "(seconds)"
  | .latencyPercentile p => "p" ++ toString p ++ "(ms)"

/-- One emitted record: a named numeric test case
(`junit.TestCase` from `perf.CreatePerfTestCase`). -/
structure TestCase where
  name : RecordName
  value : ℚ
deriving Repr, DecidableEq

/-- The four fixed metric records (src lines 177-180), in source order:
request count, requested QPS (`qpsPerClient*numClients`), actual QPS,
error percentage. -/
def fixedRecords (numClients : Int) (r0 : LoadResultEntry)
    (errorsPercentage : ℚ) : List TestCase :=
  [⟨.requestCount, (r0.durationHistogramCount : ℚ)⟩,
   ⟨.requestedQPS, ((qpsPerClient * numClients : Int) : ℚ)⟩,
   ⟨.actualQPS, r0.actualQPS⟩,
   ⟨.errorsPercentage, errorsPercentage⟩]

/-- The record for one scale event (src line 186): value is
`ev.timestamp.Sub(resp.Result[0].StartTime) / time.Second`, a Go `int64`
division (truncation toward zero), converted to a float. -/
def scaleEventRecord (startTime : Int) (ev : ScaleEvent) : TestCase :=
  ⟨.scaleFromTo ev.oldScale ev.newScale,
   ((Int.tdiv (ev.timestamp - startTime) nsPerSecond : Int) : ℚ)⟩

/-- The record for one latency percentile (src lines 190-192):
value is `float32(p.Value) * 1000`, name encodes `int(p.Percentile)`. -/
def percentileRecord (p : HistogramPercentile) : TestCase :=
  ⟨.latencyPercentile (goTruncInt p.percentile), p.value * 1000⟩

/-- The full record sequence a tier emits (src lines 175-193): the four
fixed metrics, then one record per logged scale event in log order, then
one record per latency percentile in the response's order. -/
def buildTestCases (numClients : Int) (r0 : LoadResultEntry)
    (errorsPercentage : ℚ) (events : List ScaleEvent) : List TestCase :=
  fixedRecords numClients r0 errorsPercentage
    ++ events.map (scaleEventRecord r0.startTime)
    ++ r0.percentiles.map percentileRecord

/-! ## One tier run: `scaleRevisionByLoad` (src lines 75-195)

The external collaborators are represented by a `TierEnv`: the outcome
of each fallible external call, the endpoints-update notifications the
informer delivers while it runs, and the load-generator response.  The
control flow (the order of the `t.Fatalf` exits, the placement of
`close(stopCh)` and the unguarded `resp.Result[0]` reads) is translated
from the source. -/

/-- The phase at which `t.Fatalf` aborts a tier. -/
inductive TierPhase where
  | setup
  | createService
  | getEndpoint
  | probe
  | load
deriving Repr, DecidableEq

/-- Result of one tier run.  `fatal` is a `t.Fatalf` exit;
`panicEmptyResult` is the runtime index-out-of-range failure of
`resp.Result[0]` on an empty result slice; `ok` carries the returned
records. -/
inductive TierOutcome where
  | fatal (phase : TierPhase)
  | panicEmptyResult
  | ok (records : List TestCase)
deriving Repr, DecidableEq

/-- Outcomes of the external collaborators for one tier. -/
structure TierEnv where
  setupOk : Bool
  createServiceOk : Bool
  getEndpointOk : Bool
  probeOk : Bool
  updates : List EndpointsUpdate
  loadResponse : Option LoadResponse
deriving Repr, DecidableEq

/-- A tier run's observable result: its outcome, whether the informer
watcher was started (`controller.StartInformers`, src line 151), and
whether the stop channel was closed (`close(stopCh)`, src line 170). -/
structure TierRun where
  outcome : TierOutcome
  watcherStarted : Bool
  stopChClosed : Bool
deriving Repr, DecidableEq

/-- `scaleRevisionByLoad` (src lines 75-195).  Ordered fallible steps:
`Setup` (line 76), `CreateRunLatestServiceReady` (line 91),
`GetIngressEndpoint` (line 105), `WaitForEndpointState` (line 113); each
failure is a `t.Fatalf` before the informer starts.  Then the fresh
empty `scaleEvents` log is created (line 126), the informer starts and
delivers updates, and `RunLoadTest` runs (line 165): on error,
`t.Fatalf` fires at line 167 — before `close(stopCh)` at line 170.  On
success the stop channel is closed and the records are built from
`resp.Result[0]`, which is read without an emptiness guard (line 177). -/
def scaleRevisionByLoadRun (serviceName : String) (numClients : Int)
    (env : TierEnv) : TierRun :=
  if ¬env.setupOk then ⟨.fatal .setup, false, false⟩
  else if ¬env.createServiceOk then ⟨.fatal .createService, false, false⟩
  else if ¬env.getEndpointOk then ⟨.fatal .getEndpoint, false, false⟩
  else if ¬env.probeOk then ⟨.fatal .probe, false, false⟩
  else
    let scaleEvents := deliverUpdates serviceName [] env.updates
    match env.loadResponse with
    | none => ⟨.fatal .load, true, false⟩
    | some resp =>
      match resp.result with
      | [] => ⟨.panicEmptyResult, true, true⟩
      | r0 :: _ =>
        ⟨.ok (buildTestCases numClients r0 resp.errorsPercentage scaleEvents),
         true, true⟩

/-! ## The suite: `TestScaleRevisionByLoad` (src lines 63-73)

Each tier runs inside `t.Run(...)` as a subtest: `t.Fatalf` inside
`scaleRevisionByLoad` terminates only that subtest's goroutine (the
`tc = append(...)` in the closure never executes), and the loop over
`concurrentClients` continues with the next tier.  A runtime panic in a
subtest, by contrast, aborts the whole test process. -/

/-- Iterates the tiers in order, accumulating records of successful
tiers; a `fatal` tier contributes nothing but the sweep continues; a
panic aborts the whole run (`none`). -/
def runSuiteTiers (serviceName : String) (envs : Int → TierEnv) :
    List Int → List TestCase → Option (List TestCase)
  | [], tc => some tc
  | n :: rest, tc =>
    match (scaleRevisionByLoadRun serviceName n (envs n)).outcome with
    | .ok records => runSuiteTiers serviceName envs rest (tc ++ records)
    | .fatal _ => runSuiteTiers serviceName envs rest tc
    | .panicEmptyResult => none

/-- `TestScaleRevisionByLoad` (src lines 63-73): runs every configured
tier in order and returns the accumulated records handed to
`testgrid.CreateXMLOutput`. -/
def testScaleRevisionByLoad (serviceName : String) (envs : Int → TierEnv) :
    Option (List TestCase) :=
  runSuiteTiers serviceName envs concurrentClients []

/-! ## The watcher as a stoppable event stream

The informer machinery itself (`client-go` shared informers and
`knative.dev/pkg`'s `controller.StartInformers`, both vendored outside
`src/`) delivers the update notifications and reacts to `close(stopCh)`. -/

/-- An event observed by the watcher loop: an update notification or the
orchestrator's stop (`close(stopCh)`). -/
inductive WatcherMsg where
  | update (u : EndpointsUpdate)
  | stop
deriving Repr, DecidableEq

/-- Watcher state: the scale-event log and whether the stop channel has
been closed. -/
structure WatcherState where
  log : List ScaleEvent
  stopped : Bool
deriving Repr, DecidableEq

/-- Modelled from the spec: the notification-delivery machinery
(client-go shared informer plus `controller.StartInformers`, vendored
outside `src/`) is absent, and the spec's §4.2 contract for `stop` is
"must guarantee no further appends occur after this call returns
(synchronous drain)".  Accordingly a notification arriving after the
stop is a no-op; a notification before the stop runs the source's
`UpdateFunc` handler (`processUpdate`). -/
def watcherStep (serviceName : String) (s : WatcherState) :
    WatcherMsg → WatcherState
  | .update u =>
    if s.stopped then s else ⟨processUpdate serviceName s.log u, s.stopped⟩
  | .stop => ⟨s.log, true⟩

/-- Runs the watcher over a sequence of messages. -/
def watcherRunMsgs (serviceName : String) (s : WatcherState)
    (ms : List WatcherMsg) : WatcherState :=
  ms.foldl (watcherStep serviceName) s

/-! ## ServerlessService condition lifecycle
(src/pkg/apis/networking/v1alpha1/serverlessservice_lifecycle.go)

The `apis.ConditionSet` machinery lives in the vendored
`knative.dev/pkg/apis` package, outside `src/`; the hosting repository's
types file with the condition-type constants is also absent. -/

/-- `corev1.ConditionStatus`. -/
inductive CondStatus where
  | condTrue
  | condFalse
  | condUnknown
deriving Repr, DecidableEq

/-- `apis.ConditionSeverity`. -/
inductive CondSeverity where
  | severityError
  | severityWarning
  | severityInfo
deriving Repr, DecidableEq

/-- One `apis.Condition`, projected to the fields the lifecycle file
sets (the volatile `LastTransitionTime` is elided). -/
structure ApisCondition where
  condType : String
  status : CondStatus
  severity : CondSeverity
  reason : String
  message : String
deriving Repr, DecidableEq

/-- Modelled from the spec: the types file defining
`ServerlessServiceConditionEndspointsPopulated` is not under `src/`; in
the hosting repository the constant's value is the condition-type string
`"EndpointsPopulated"`. -/
def ServerlessServiceConditionEndspointsPopulated : String :=
  "EndpointsPopulated"

/-- Modelled from the spec: the types file defining
`ActivatorEndpointsPopulated` is not under `src/`; its value is the
condition-type string `"ActivatorEndpointsPopulated"`. -/
def ActivatorEndpointsPopulatedType : String :=
  "ActivatorEndpointsPopulated"

/-- Modelled from the spec: `apis.ConditionReady`, the happy condition
of every living condition set (`knative.dev/pkg/apis`, vendored outside
`src/`), is the string `"Ready"`. -/
def ConditionReady : String := "Ready"

/-- An `apis.ConditionSet`: the happy condition plus the dependent
condition types. -/
structure ConditionSet where
  happy : String
  dependents : List String
deriving Repr, DecidableEq

/-- `serverlessServiceCondSet = apis.NewLivingConditionSet(
ServerlessServiceConditionEndspointsPopulated)` (src lines 27-29): a
living condition set has happy condition `Ready` and the listed
dependents. -/
def serverlessServiceCondSet : ConditionSet :=
  ⟨ConditionReady, [ServerlessServiceConditionEndspointsPopulated]⟩

/-- The conditions of a `ServerlessServiceStatus` (its duck-typed
`Status.Conditions` list). -/
def SSSConditions := List ApisCondition

/-- Modelled from the spec: `ConditionSet.Manage(...).GetCondition(t)`
(vendored `knative.dev/pkg/apis/condition_set.go`, outside `src/`)
returns the stored condition whose type is `t`, if any. -/
def getCondition (t : String) (conds : SSSConditions) : Option ApisCondition :=
  conds.find? (fun c => c.condType == t)

/-- Modelled from the spec: `ConditionSet.Manage(...).SetCondition(new)`
(vendored `knative.dev/pkg/apis/condition_set.go`, outside `src/`)
stores `new`, replacing any stored condition of the same type and
keeping every condition of a different type; it never recomputes the
happy condition.  (The sort by type and the `LastTransitionTime`
bookkeeping of the original are elided: neither affects per-type
lookup.) -/
def setCondition (conds : SSSConditions) (new : ApisCondition) :
    SSSConditions :=
  (conds.filter (fun c => c.condType != new.condType)) ++ [new]

/-- `MarkActivatorEndpointsPopulated` (src lines 59-67): sets the
`ActivatorEndpointsPopulated` condition to True with Info severity. -/
def markActivatorEndpointsPopulated (conds : SSSConditions) : SSSConditions :=
  setCondition conds
    ⟨ActivatorEndpointsPopulatedType, .condTrue, .severityInfo,
     "ActivatorEndpointsPopulated", "Revision is backed by Activator"⟩

/-- `MarkActivatorEndpointsRemoved` (src lines 70-78): sets the
`ActivatorEndpointsPopulated` condition to False with Info severity. -/
def markActivatorEndpointsRemoved (conds : SSSConditions) : SSSConditions :=
  setCondition conds
    ⟨ActivatorEndpointsPopulatedType, .condFalse, .severityInfo,
     "ActivatorEndpointsPopulated", "Revision is backed by Activator"⟩

/-- `IsReady` (src lines 88-90): `IsHappy` of the condition set, i.e.
the happy (`Ready`) condition is present and True (modelled from the
spec for the vendored `IsHappy`/`IsTrue` of `knative.dev/pkg/apis`). -/
def isReady (conds : SSSConditions) : Bool :=
  match getCondition serverlessServiceCondSet.happy conds with
  | some c => c.status == .condTrue
  | none => false

/-! ## Notification streams as ready-count sequences

A shared informer's `UpdateFunc(oldObj, newObj)` receives the previously
cached object as `oldObj`, so a stream of observations of one resource
reaches the handler as consecutive pairs. -/

/-- Modelled from the spec: the informer delivery machinery (vendored
client-go, outside `src/`) pairs each notification with the previous
observation of the same resource (spec §4.2: the watcher detects "when
the ready count differs from the previous observation").  A sequence of
(ready count, observation time) pairs for the resource `name` therefore
reaches the handler as updates carrying consecutive count pairs, stamped
with the later observation's time. -/
def updatesOfCounts (name : String) (counts : List (Int × Int)) :
    List EndpointsUpdate :=
  (counts.zip counts.tail).map (fun p => ⟨name, p.1.1, p.2.1, p.2.2⟩)

/-- Follows the spec's words (§8): one scale event per actual change of
the ready count — no event for a repeated identical count — whose
`oldScale`/`newScale` are the ready counts of the two notifications that
produced it. -/
def specScaleChanges (counts : List (Int × Int)) : List ScaleEvent :=
  ((counts.zip counts.tail).filter (fun p => p.1.1 != p.2.1)).map
    (fun p => ⟨p.1.1, p.2.1, p.2.2⟩)

/-- The records contributed by tier `n` of the suite (the value of
`scaleRevisionByLoad(t, n)` when it returns, `none` when the subtest
dies first). -/
def tierRecords (serviceName : String) (envs : Int → TierEnv) (n : Int) :
    Option (List TestCase) :=
  match (scaleRevisionByLoadRun serviceName n (envs n)).outcome with
  | .ok records => some records
  | _ => none

/-- The percentile a record's name encodes, if it is a percentile
record. -/
def recordPercentile : TestCase → Option Int
  | ⟨.latencyPercentile p, _⟩ => some p
  | _ => none

/-- Order on records induced by the percentile their names encode
(vacuous for non-percentile records). -/
def percentileRecordLE (a b : TestCase) : Prop :=
  ∀ pa pb, recordPercentile a = some pa → recordPercentile b = some pb →
    pa ≤ pb

/-! ## Concrete environments used in counterexamples and witnesses -/

/-- A load response with one result entry and no percentiles. -/
def simpleResponse : LoadResponse :=
  ⟨[⟨5, 100, 0, []⟩], 0⟩

/-- A tier whose external calls all succeed and whose informer delivers
no updates. -/
def goodTierEnv : TierEnv :=
  ⟨true, true, true, true, [], some simpleResponse⟩

/-- A tier whose `Setup` call fails. -/
def setupFailEnv : TierEnv :=
  ⟨false, true, true, true, [], some simpleResponse⟩

/-- A tier whose load run fails (`RunLoadTest` returns an error). -/
def loadFailEnv : TierEnv :=
  ⟨true, true, true, true, [], none⟩

/-- A tier whose load run returns a response with an empty `Result`
slice. -/
def emptyResultEnv : TierEnv :=
  ⟨true, true, true, true, [], some ⟨[], 0⟩⟩

/-- Suite environments where the tier with 10 clients fails at setup,
the tier with 20 clients succeeds, and every other tier fails at
setup. -/
def suiteCexEnvs : Int → TierEnv :=
  fun n => if n = 20 then goodTierEnv else setupFailEnv

/-- Suite environments where every tier succeeds. -/
def goodSuiteEnvs : Int → TierEnv :=
  fun _ => goodTierEnv

/-- A result entry with two ascending latency percentiles and a load
start at 5s (in nanoseconds). -/
def richR0 : LoadResultEntry :=
  ⟨600, 99, 5000000000, [⟨50, 1⟩, ⟨99, 2⟩]⟩

/-- A load response wrapping `richR0`. -/
def richResp : LoadResponse :=
  ⟨[richR0], 0⟩

/-- A tier environment with a scale event observed before the load
start and one after (plus a duplicate-count notification), and two
ascending latency percentiles. -/
def richTierEnv : TierEnv :=
  ⟨true, true, true, true,
   [⟨"svc-deadbeef", 1, 2, 2000000000⟩, ⟨"svc-deadbeef", 2, 2, 4000000000⟩,
    ⟨"svc-deadbeef", 2, 4, 9000000000⟩],
   some richResp⟩

/-- A condition list with the `Ready` and `EndpointsPopulated`
conditions true. -/
def readyConds : SSSConditions :=
  [⟨"Ready", .condTrue, .severityError, "", ""⟩,
   ⟨"EndpointsPopulated", .condTrue, .severityError, "", ""⟩]

/-! ## Helper lemmas -/

theorem goTruncInt_eq_floor {q : ℚ} (h : 0 ≤ q) : goTruncInt q = ⌊q⌋ := by
  rw [goTruncInt, Rat.floor_def]
  exact Int.tdiv_eq_ediv (Rat.num_nonneg.mpr h) (Int.natCast_nonneg _)

theorem goTruncInt_neg (q : ℚ) : goTruncInt (-q) = -goTruncInt q := by
  simp [goTruncInt, Rat.neg_num, Rat.neg_den, Int.neg_tdiv]

theorem goTruncInt_eq_ceil {q : ℚ} (h : q ≤ 0) : goTruncInt q = ⌈q⌉ := by
  have h1 : goTruncInt (-q) = ⌊-q⌋ := goTruncInt_eq_floor (neg_nonneg.mpr h)
  rw [goTruncInt_neg, Int.floor_neg] at h1
  omega

theorem goTruncInt_mono {q r : ℚ} (h : q ≤ r) : goTruncInt q ≤ goTruncInt r := by
  rcases le_or_lt 0 q with hq | hq
  · rw [goTruncInt_eq_floor hq, goTruncInt_eq_floor (hq.trans h)]
    exact Int.floor_le_floor h
  rcases le_or_lt 0 r with hr | hr
  · rw [goTruncInt_eq_ceil hq.le, goTruncInt_eq_floor hr]
    have h1 : ⌈q⌉ ≤ ⌈(0 : ℚ)⌉ := Int.ceil_le_ceil hq.le
    have h2 : (0 : Int) ≤ ⌊r⌋ := Int.floor_nonneg.mpr hr
    simp only [Int.ceil_zero] at h1
    omega
  · rw [goTruncInt_eq_ceil hq.le, goTruncInt_eq_ceil hr.le]
    exact Int.ceil_le_ceil h

theorem processUpdate_append (serviceName : String) (a b : List ScaleEvent)
    (u : EndpointsUpdate) :
    processUpdate serviceName (a ++ b) u = a ++ processUpdate serviceName b u := by
  unfold processUpdate
  split
  · split
    · simp
    · rfl
  · rfl

theorem deliverUpdates_cons (serviceName : String) (log : List ScaleEvent)
    (u : EndpointsUpdate) (us : List EndpointsUpdate) :
    deliverUpdates serviceName log (u :: us)
      = deliverUpdates serviceName (processUpdate serviceName log u) us := rfl

theorem deliverUpdates_acc (serviceName : String) (us : List EndpointsUpdate)
    (log : List ScaleEvent) :
    deliverUpdates serviceName log us = log ++ deliverUpdates serviceName [] us := by
  induction us generalizing log with
  | nil => simp [deliverUpdates]
  | cons u us ih =>
    rw [deliverUpdates_cons, deliverUpdates_cons, ih,
      ih (processUpdate serviceName [] u)]
    rw [show processUpdate serviceName log u
          = log ++ processUpdate serviceName [] u from by
        simpa using processUpdate_append serviceName log [] u]
    simp

theorem deliverUpdates_matching (serviceName : String)
    (us : List EndpointsUpdate)
    (h : ∀ u ∈ us, goStringContains u.name serviceName = true) :
    deliverUpdates serviceName [] us
      = (us.filter (fun u => u.newReady != u.oldReady)).map
          (fun u => ⟨u.oldReady, u.newReady, u.now⟩) := by
  induction us with
  | nil => rfl
  | cons u us ih =>
    have hu : goStringContains u.name serviceName = true := h u (by simp)
    have hus : ∀ v ∈ us, goStringContains v.name serviceName = true :=
      fun v hv => h v (by simp [hv])
    rw [deliverUpdates_cons, deliverUpdates_acc, ih hus]
    by_cases hne : u.newReady = u.oldReady
    · simp [processUpdate, hu, hne, List.filter]
    · have hb : (u.newReady != u.oldReady) = true := by
        simpa [bne_iff_ne] using hne
      simp [processUpdate, hu, hne, List.filter, hb]

theorem scaleRevisionByLoadRun_ok (serviceName : String) (numClients : Int)
    (env : TierEnv) (resp : LoadResponse) (r0 : LoadResultEntry)
    (rest : List LoadResultEntry)
    (h1 : env.setupOk = true) (h2 : env.createServiceOk = true)
    (h3 : env.getEndpointOk = true) (h4 : env.probeOk = true)
    (h5 : env.loadResponse = some resp) (h6 : resp.result = r0 :: rest) :
    scaleRevisionByLoadRun serviceName numClients env
      = ⟨.ok (buildTestCases numClients r0 resp.errorsPercentage
            (deliverUpdates serviceName [] env.updates)), true, true⟩ := by
  simp [scaleRevisionByLoadRun, h1, h2, h3, h4, h5, h6]

theorem scaleRevisionByLoadRun_ok_inv (serviceName : String)
    (numClients : Int) (env : TierEnv) (records : List TestCase)
    (h : (scaleRevisionByLoadRun serviceName numClients env).outcome
      = TierOutcome.ok records) :
    ∃ resp r0 rest, env.loadResponse = some resp ∧ resp.result = r0 :: rest
      ∧ records = buildTestCases numClients r0 resp.errorsPercentage
          (deliverUpdates serviceName [] env.updates) := by
  rcases env with ⟨s, c, g, p, us, lr⟩
  cases s <;> cases c <;> cases g <;> cases p <;>
    simp [scaleRevisionByLoadRun] at h
  rcases lr with _ | resp
  · simp at h
  · rcases resp with ⟨res, ep⟩
    rcases res with _ | ⟨r0, rest⟩
    · simp at h
    · simp at h
      exact ⟨⟨r0 :: rest, ep⟩, r0, rest, rfl, rfl, h.symm⟩

theorem runSuiteTiers_no_panic (serviceName : String) (envs : Int → TierEnv)
    (ns : List Int) (tc : List TestCase)
    (h : ∀ n ∈ ns, (scaleRevisionByLoadRun serviceName n (envs n)).outcome
        ≠ .panicEmptyResult) :
    runSuiteTiers serviceName envs ns tc
      = some (tc ++ (ns.filterMap (tierRecords serviceName envs)).flatten) := by
  induction ns generalizing tc with
  | nil => simp [runSuiteTiers]
  | cons n ns ih =>
    have hn := h n (by simp)
    have hns : ∀ m ∈ ns,
        (scaleRevisionByLoadRun serviceName m (envs m)).outcome
          ≠ .panicEmptyResult := fun m hm => h m (by simp [hm])
    rcases hout : (scaleRevisionByLoadRun serviceName n (envs n)).outcome with
      phase | _ | records
    · simp only [runSuiteTiers, hout]
      rw [ih tc hns]
      simp [List.filterMap_cons, tierRecords, hout]
    · exact absurd hout hn
    · simp only [runSuiteTiers, hout]
      rw [ih (tc ++ records) hns]
      simp [List.filterMap_cons, tierRecords, hout, List.append_assoc]

theorem watcherStep_of_stopped (serviceName : String) (s : WatcherState)
    (h : s.stopped = true) (m : WatcherMsg) :
    watcherStep serviceName s m = s := by
  cases s with
  | mk log stopped =>
    cases m with
    | update u => simp_all [watcherStep]
    | stop => simp_all [watcherStep]

theorem watcherRunMsgs_of_stopped (serviceName : String) (s : WatcherState)
    (h : s.stopped = true) (ms : List WatcherMsg) :
    watcherRunMsgs serviceName s ms = s := by
  induction ms with
  | nil => rfl
  | cons m ms ih =>
    rw [watcherRunMsgs, List.foldl_cons, watcherStep_of_stopped _ _ h]
    exact ih

theorem find?_filter_of_imp {α : Type} (p q : α → Bool) (l : List α)
    (h : ∀ a, p a = true → q a = true) :
    List.find? p (l.filter q) = List.find? p l := by
  induction l with
  | nil => rfl
  | cons a l ih =>
    by_cases hq : q a = true
    · rw [List.filter_cons_of_pos hq]
      by_cases hp : p a = true
      · rw [List.find?_cons_of_pos _ hp, List.find?_cons_of_pos _ hp]
      · rw [List.find?_cons_of_neg _ (by simp [hp]),
          List.find?_cons_of_neg _ (by simp [hp]), ih]
    · have hq' : q a = false := by simpa using hq
      have hp' : p a = false := by
        cases hpa : p a with
        | false => rfl
        | true => exact absurd (h a hpa) (by simp [hq'])
      rw [List.filter_cons_of_neg (by simp [hq']), ih,
        List.find?_cons_of_neg _ (by simp [hp'])]

theorem getCondition_setCondition_of_ne (t : String) (conds : SSSConditions)
    (new : ApisCondition) (h : t ≠ new.condType) :
    getCondition t (setCondition conds new) = getCondition t conds := by
  unfold getCondition setCondition
  rw [List.find?_append]
  have h1 : List.find? (fun c => c.condType == t) [new] = none := by
    have hp : ((new.condType == t) : Bool) = false := by
      simp only [beq_eq_false_iff_ne]
      exact fun he => h he.symm
    simp [List.find?, hp]
  rw [h1]
  rw [show ∀ o : Option ApisCondition, o.or none = o from fun o => by
    cases o <;> rfl]
  exact find?_filter_of_imp _ _ conds (fun c hc => by
    have hct : c.condType = t := by simpa using hc
    simp only [bne_iff_ne, ne_eq, decide_eq_true_eq]
    exact fun he => h (hct ▸ he))

/-! ## The claims -/

/-- C1: after the watcher's stop (closing the stop channel once the load
run completes), no further scale event is ever appended to the log: for
every sequence of notifications delivered after the stop, the log is
unchanged, so the snapshot taken immediately after stopping is the
final, complete set of events for the tier. -/
theorem stop_gives_final_snapshot (serviceName : String) (s : WatcherState)
    (pre post : List WatcherMsg) :
    (watcherRunMsgs serviceName s (pre ++ WatcherMsg.stop :: post)).log
      = (watcherRunMsgs serviceName s (pre ++ [WatcherMsg.stop])).log := by
  have h1 : ∀ s2 : WatcherState, s2.stopped = true →
      List.foldl (watcherStep serviceName) s2 post = s2 :=
    fun s2 h2 => watcherRunMsgs_of_stopped serviceName s2 h2 post
  unfold watcherRunMsgs
  rw [List.foldl_append, List.foldl_append, List.foldl_cons]
  rw [h1 (watcherStep serviceName
      (List.foldl (watcherStep serviceName) s pre) WatcherMsg.stop) rfl]
  rfl

/-- C2 counterexample: in `TestScaleRevisionByLoad` each tier runs as a
`t.Run` subtest, so a tier's `t.Fatalf` kills only that subtest and the
sweep continues.  With the tier of 10 clients failing at setup and the
tier of 20 clients succeeding, the final result set still contains the
20-client tier's records — contradicting the claim that no tier after
the first failing one is executed and that only records from tiers
completed before the failure appear. -/
theorem suite_stops_at_first_failure_cex :
    (scaleRevisionByLoadRun "svc" 10 (suiteCexEnvs 10)).outcome
        = TierOutcome.fatal TierPhase.setup
    ∧ testScaleRevisionByLoad "svc" suiteCexEnvs
        = some [⟨.requestCount, 5⟩, ⟨.requestedQPS, 200⟩,
                ⟨.actualQPS, 100⟩, ⟨.errorsPercentage, 0⟩] := by
  decide

/-- C2 amended: a tier failure (`t.Fatalf` inside the subtest) aborts
only that tier; every configured tier still executes, and the final
result set is the concatenation, in tier order, of the records of every
successful tier — before or after any failure.  (A runtime panic, by
contrast, aborts the whole run.) -/
theorem suite_collects_all_successful_tiers (serviceName : String)
    (envs : Int → TierEnv)
    (h : ∀ n ∈ concurrentClients,
      (scaleRevisionByLoadRun serviceName n (envs n)).outcome
        ≠ TierOutcome.panicEmptyResult) :
    testScaleRevisionByLoad serviceName envs
      = some ((concurrentClients.filterMap
          (tierRecords serviceName envs)).flatten) := by
  unfold testScaleRevisionByLoad
  rw [runSuiteTiers_no_panic serviceName envs concurrentClients [] h]
  simp

/-- C2 witness: the amended statement applied to the concrete suite
environments of the counterexample (no tier panics there). -/
theorem suite_collects_all_successful_tiers_witness :
    testScaleRevisionByLoad "svc" suiteCexEnvs
      = some ((concurrentClients.filterMap
          (tierRecords "svc" suiteCexEnvs)).flatten) :=
  suite_collects_all_successful_tiers "svc" suiteCexEnvs (by decide)

/-- C3: for a sequence of ready-count notifications of a resource whose
name matches the service, the handler appends exactly one scale event
per actual change of the ready count — none for a notification carrying
the same ready count as the last observed value — and each event's
`oldScale`/`newScale` are the ready counts of the two notifications that
produced it. -/
theorem one_event_per_ready_count_change (serviceName name : String)
    (counts : List (Int × Int))
    (h : goStringContains name serviceName = true) :
    deliverUpdates serviceName [] (updatesOfCounts name counts)
      = specScaleChanges counts := by
  unfold updatesOfCounts specScaleChanges
  rw [deliverUpdates_matching serviceName _ (by
    intro u hu
    simp only [List.mem_map] at hu
    obtain ⟨p, _, he⟩ := hu
    rw [← he]
    exact h)]
  rw [List.filter_map]
  rw [List.filter_congr (by
    intro p _
    show (p.2.1 != p.1.1) = (p.1.1 != p.2.1)
    rcases eq_or_ne p.1.1 p.2.1 with hpq | hpq
    · rw [hpq]
    · have h1 : (p.2.1 != p.1.1) = true := by
        simp only [bne_iff_ne, ne_eq]
        exact fun he => hpq he.symm
      have h2 : (p.1.1 != p.2.1) = true := by
        simp only [bne_iff_ne, ne_eq]
        exact hpq
      rw [h1, h2])]
  rw [List.map_map]
  rfl

/-- C3 witness: a concrete matching notification stream with a repeated
count; exactly the two changes are recorded, with the counts and times
of the notifications that produced them. -/
theorem one_event_per_ready_count_change_witness :
    goStringContains "helloworld-00001-deployment" "helloworld" = true
    ∧ deliverUpdates "helloworld" []
        (updatesOfCounts "helloworld-00001-deployment"
          [(0, 1), (1, 5), (1, 7), (3, 9)])
      = specScaleChanges [(0, 1), (1, 5), (1, 7), (3, 9)]
    ∧ specScaleChanges [(0, 1), (1, 5), (1, 7), (3, 9)]
      = [⟨0, 1, 5⟩, ⟨1, 3, 9⟩] :=
  ⟨by decide,
   one_event_per_ready_count_change "helloworld" "helloworld-00001-deployment"
     [(0, 1), (1, 5), (1, 7), (3, 9)] (by decide),
   by decide⟩

/-- C4 counterexample: when the load engine fails, `t.Fatalf` fires at
src line 167, before the `close(stopCh)` at line 170 — so on a
load-engine failure the tier propagates the failure with the watcher's
stop channel never closed, contradicting the claim that the orchestrator
still stops the watcher before propagating. -/
theorem load_failure_leaves_watcher_running_cex :
    scaleRevisionByLoadRun "svc" 10 loadFailEnv
      = ⟨TierOutcome.fatal TierPhase.load, true, false⟩ := by
  decide

/-- C4 amended: the stop channel is closed exactly when the run reaches
the post-load `close(stopCh)`: setup, service creation, endpoint lookup
and the readiness probe succeed and the load engine returns a response.
On a load-engine failure the tier aborts with the watcher still
subscribed. -/
theorem stopCh_closed_iff_load_returns (serviceName : String)
    (numClients : Int) (env : TierEnv) :
    (scaleRevisionByLoadRun serviceName numClients env).stopChClosed
      = (env.setupOk && env.createServiceOk && env.getEndpointOk
          && env.probeOk && env.loadResponse.isSome) := by
  rcases env with ⟨s, c, g, p, us, lr⟩
  rcases lr with _ | resp
  · cases s <;> cases c <;> cases g <;> cases p <;>
      simp [scaleRevisionByLoadRun]
  · rcases resp with ⟨res, ep⟩
    rcases res with _ | ⟨r0, rest⟩ <;>
      cases s <;> cases c <;> cases g <;> cases p <;>
      simp [scaleRevisionByLoadRun]

/-- C5 counterexample: a load response whose `Result` slice is empty is
not caught by any guard: the run reaches the unguarded `resp.Result[0]`
read (src line 177) and fails with an index-out-of-range panic rather
than a reported `t.Fatalf` error, contradicting the claim that the first
result entry is read only when at least one entry exists. -/
theorem empty_result_panics_cex :
    scaleRevisionByLoadRun "svc" 10 emptyResultEnv
      = ⟨TierOutcome.panicEmptyResult, true, true⟩ := by
  decide

/-- C5 amended: a load response with an empty `Result` slice aborts the
tier at the unguarded `resp.Result[0]` read with a runtime
index-out-of-range panic — no records (zero-valued or otherwise) are
emitted, but no explicit fatal reporting error is raised either, and the
read is reached regardless of emptiness. -/
theorem empty_result_reaches_unguarded_index (serviceName : String)
    (numClients : Int) (env : TierEnv) (resp : LoadResponse)
    (h1 : env.setupOk = true) (h2 : env.createServiceOk = true)
    (h3 : env.getEndpointOk = true) (h4 : env.probeOk = true)
    (h5 : env.loadResponse = some resp) (h6 : resp.result = []) :
    (scaleRevisionByLoadRun serviceName numClients env).outcome
      = TierOutcome.panicEmptyResult := by
  simp [scaleRevisionByLoadRun, h1, h2, h3, h4, h5, h6]

/-- C5 witness: the amended statement at the concrete
empty-result environment. -/
theorem empty_result_reaches_unguarded_index_witness :
    (scaleRevisionByLoadRun "svc" 10 emptyResultEnv).outcome
      = TierOutcome.panicEmptyResult :=
  empty_result_reaches_unguarded_index "svc" 10 emptyResultEnv ⟨[], 0⟩
    rfl rfl rfl rfl rfl rfl

/-- C6: on a successful tier run the emitted record sequence has the
fixed, reproducible order: the four fixed metrics (request count,
requested QPS, actual QPS, error percentage) first, then one record per
scale event in log (arrival) order, then one record per latency
percentile in the response's order — which is ascending whenever the
response lists its percentiles in ascending order. -/
theorem record_order_fixed_then_scale_then_percentiles
    (serviceName : String) (numClients : Int) (env : TierEnv)
    (resp : LoadResponse) (r0 : LoadResultEntry) (rest : List LoadResultEntry)
    (h1 : env.setupOk = true) (h2 : env.createServiceOk = true)
    (h3 : env.getEndpointOk = true) (h4 : env.probeOk = true)
    (h5 : env.loadResponse = some resp) (h6 : resp.result = r0 :: rest)
    (hasc : List.Pairwise
      (fun p q : HistogramPercentile => p.percentile ≤ q.percentile)
      r0.percentiles) :
    (scaleRevisionByLoadRun serviceName numClients env).outcome
      = TierOutcome.ok (fixedRecords numClients r0 resp.errorsPercentage
          ++ (deliverUpdates serviceName [] env.updates).map
              (scaleEventRecord r0.startTime)
          ++ r0.percentiles.map percentileRecord)
    ∧ List.Pairwise percentileRecordLE (r0.percentiles.map percentileRecord) := by
  constructor
  · rw [scaleRevisionByLoadRun_ok serviceName numClients env resp r0 rest
      h1 h2 h3 h4 h5 h6]
    rfl
  · exact hasc.map percentileRecord (fun a b hab => by
      intro pa pb hpa hpb
      simp only [percentileRecord, recordPercentile, Option.some.injEq] at hpa hpb
      rw [← hpa, ← hpb]
      exact goTruncInt_mono hab)

/-- C6 witness: the order statement at a concrete environment with two
ascending percentiles. -/
theorem record_order_fixed_then_scale_then_percentiles_witness :
    (scaleRevisionByLoadRun "svc" 10 richTierEnv).outcome
      = TierOutcome.ok (fixedRecords 10 richR0 richResp.errorsPercentage
          ++ (deliverUpdates "svc" [] richTierEnv.updates).map
              (scaleEventRecord richR0.startTime)
          ++ richR0.percentiles.map percentileRecord)
    ∧ List.Pairwise percentileRecordLE (richR0.percentiles.map percentileRecord) :=
  record_order_fixed_then_scale_then_percentiles "svc" 10 richTierEnv
    richResp richR0 [] rfl rfl rfl rfl rfl rfl (by decide)

/-- C7: the correlator discards nothing: on a successful tier run every
logged scale event yields exactly one record, in log order, whose value
is the elapsed time `event.timestamp - startTime` of the load run in
whole seconds (Go's truncating `int64` division by `time.Second`) —
including events whose timestamp precedes the load start, for which the
elapsed value is negative. -/
theorem correlator_keeps_every_event (serviceName : String)
    (numClients : Int) (env : TierEnv) (resp : LoadResponse)
    (r0 : LoadResultEntry) (rest : List LoadResultEntry)
    (h1 : env.setupOk = true) (h2 : env.createServiceOk = true)
    (h3 : env.getEndpointOk = true) (h4 : env.probeOk = true)
    (h5 : env.loadResponse = some resp) (h6 : resp.result = r0 :: rest) :
    ∃ pre post, (scaleRevisionByLoadRun serviceName numClients env).outcome
        = TierOutcome.ok (pre
            ++ (deliverUpdates serviceName [] env.updates).map
                (scaleEventRecord r0.startTime)
            ++ post)
      ∧ ((deliverUpdates serviceName [] env.updates).map
            (scaleEventRecord r0.startTime)).length
          = (deliverUpdates serviceName [] env.updates).length
      ∧ ∀ ev ∈ deliverUpdates serviceName [] env.updates,
          scaleEventRecord r0.startTime ev
            = ⟨RecordName.scaleFromTo ev.oldScale ev.newScale,
               ((Int.tdiv (ev.timestamp - r0.startTime) nsPerSecond : Int) : ℚ)⟩ := by
  refine ⟨fixedRecords numClients r0 resp.errorsPercentage,
    r0.percentiles.map percentileRecord, ?_, by simp, fun ev _ => rfl⟩
  rw [scaleRevisionByLoadRun_ok serviceName numClients env resp r0 rest
    h1 h2 h3 h4 h5 h6]
  rfl

/-- C7 witness: at the concrete environment whose first recorded event
(1→2) precedes the load start by 3 seconds, the event is still
correlated, with value -3; the later event (2→4) gets value 4. -/
theorem correlator_keeps_every_event_witness :
    (∃ pre post, (scaleRevisionByLoadRun "svc" 10 richTierEnv).outcome
        = TierOutcome.ok (pre
            ++ (deliverUpdates "svc" [] richTierEnv.updates).map
                (scaleEventRecord richR0.startTime)
            ++ post)
      ∧ ((deliverUpdates "svc" [] richTierEnv.updates).map
            (scaleEventRecord richR0.startTime)).length
          = (deliverUpdates "svc" [] richTierEnv.updates).length
      ∧ ∀ ev ∈ deliverUpdates "svc" [] richTierEnv.updates,
          scaleEventRecord richR0.startTime ev
            = ⟨RecordName.scaleFromTo ev.oldScale ev.newScale,
               ((Int.tdiv (ev.timestamp - richR0.startTime) nsPerSecond : Int) : ℚ)⟩)
    ∧ (deliverUpdates "svc" [] richTierEnv.updates).map
        (scaleEventRecord richR0.startTime)
      = [⟨RecordName.scaleFromTo 1 2, -3⟩, ⟨RecordName.scaleFromTo 2 4, 4⟩] :=
  ⟨correlator_keeps_every_event "svc" 10 richTierEnv richResp richR0 []
     rfl rfl rfl rfl rfl rfl,
   by decide⟩

/-- C8: each tier uses its own freshly created, initially empty scale
event log: the suite's result is the concatenation of per-tier record
sets, each a function of that tier's environment alone, and whenever a
tier emits records their scale events are exactly the fold of the
handler from the empty log over that tier's own notifications — no log
instance is shared or reused across tiers. -/
theorem fresh_log_per_tier (serviceName : String) (envs : Int → TierEnv)
    (h : ∀ n ∈ concurrentClients,
      (scaleRevisionByLoadRun serviceName n (envs n)).outcome
        ≠ TierOutcome.panicEmptyResult) :
    testScaleRevisionByLoad serviceName envs
      = some ((concurrentClients.filterMap
          (tierRecords serviceName envs)).flatten)
    ∧ ∀ n records, tierRecords serviceName envs n = some records →
        ∃ r0 errPct, records = buildTestCases n r0 errPct
          (deliverUpdates serviceName [] (envs n).updates) := by
  constructor
  · unfold testScaleRevisionByLoad
    rw [runSuiteTiers_no_panic serviceName envs concurrentClients [] h]
    simp
  · intro n records hrec
    unfold tierRecords at hrec
    rcases hout : (scaleRevisionByLoadRun serviceName n (envs n)).outcome with
      phase | _ | records2
    · rw [hout] at hrec
      simp at hrec
    · rw [hout] at hrec
      simp at hrec
    · rw [hout] at hrec
      simp at hrec
      obtain ⟨resp, r0, rest, _, _, hb⟩ :=
        scaleRevisionByLoadRun_ok_inv serviceName n (envs n) records2 hout
      exact ⟨r0, resp.errorsPercentage, hrec ▸ hb⟩

/-- C8 witness: the statement at concrete all-successful suite
environments; the 10-client tier's records are exactly those built from
the empty log folded over its own (empty) notification list. -/
theorem fresh_log_per_tier_witness :
    (testScaleRevisionByLoad "svc" goodSuiteEnvs
      = some ((concurrentClients.filterMap
          (tierRecords "svc" goodSuiteEnvs)).flatten))
    ∧ ∃ r0 errPct,
        buildTestCases 10 ⟨5, 100, 0, []⟩ 0
            (deliverUpdates "svc" [] (goodSuiteEnvs 10).updates)
          = buildTestCases 10 r0 errPct
            (deliverUpdates "svc" [] (goodSuiteEnvs 10).updates) := by
  have h := fresh_log_per_tier "svc" goodSuiteEnvs (by decide)
  exact ⟨h.1, h.2 10 (buildTestCases 10 ⟨5, 100, 0, []⟩ 0
    (deliverUpdates "svc" [] (goodSuiteEnvs 10).updates)) rfl⟩

/-- C9: on a successful tier run, each latency percentile of the load
result yields exactly one record, whose name encodes the percentile
(Go's `int` truncation of `p.Percentile`, printed as `p<n>(ms)`) and
whose value is the percentile's latency in seconds multiplied by
1000 (milliseconds). -/
theorem one_record_per_percentile (serviceName : String)
    (numClients : Int) (env : TierEnv) (resp : LoadResponse)
    (r0 : LoadResultEntry) (rest : List LoadResultEntry)
    (h1 : env.setupOk = true) (h2 : env.createServiceOk = true)
    (h3 : env.getEndpointOk = true) (h4 : env.probeOk = true)
    (h5 : env.loadResponse = some resp) (h6 : resp.result = r0 :: rest) :
    ∃ pre, (scaleRevisionByLoadRun serviceName numClients env).outcome
        = TierOutcome.ok (pre ++ r0.percentiles.map percentileRecord)
      ∧ (r0.percentiles.map percentileRecord).length = r0.percentiles.length
      ∧ (∀ p ∈ r0.percentiles, percentileRecord p
          = ⟨RecordName.latencyPercentile (goTruncInt p.percentile),
             p.value * 1000⟩)
      ∧ ∀ p ∈ r0.percentiles,
          flattenRecordName (percentileRecord p).name
            = "p" ++ toString (goTruncInt p.percentile) ++ "(ms)" := by
  refine ⟨fixedRecords numClients r0 resp.errorsPercentage
      ++ (deliverUpdates serviceName [] env.updates).map
          (scaleEventRecord r0.startTime),
    ?_, by simp, fun p _ => rfl, fun p _ => rfl⟩
  rw [scaleRevisionByLoadRun_ok serviceName numClients env resp r0 rest
    h1 h2 h3 h4 h5 h6]
  rfl

/-- C9 witness: at the concrete environment with percentiles 50 (1s)
and 99 (2s), the emitted percentile records are `p50(ms) = 1000` and
`p99(ms) = 2000`. -/
theorem one_record_per_percentile_witness :
    (∃ pre, (scaleRevisionByLoadRun "svc" 10 richTierEnv).outcome
        = TierOutcome.ok (pre ++ richR0.percentiles.map percentileRecord)
      ∧ (richR0.percentiles.map percentileRecord).length
          = richR0.percentiles.length
      ∧ (∀ p ∈ richR0.percentiles, percentileRecord p
          = ⟨RecordName.latencyPercentile (goTruncInt p.percentile),
             p.value * 1000⟩)
      ∧ ∀ p ∈ richR0.percentiles,
          flattenRecordName (percentileRecord p).name
            = "p" ++ toString (goTruncInt p.percentile) ++ "(ms)")
    ∧ richR0.percentiles.map percentileRecord
      = [⟨RecordName.latencyPercentile 50, 1000⟩,
         ⟨RecordName.latencyPercentile 99, 2000⟩] := by
  refine ⟨one_record_per_percentile "svc" 10 richTierEnv richResp richR0 []
    rfl rfl rfl rfl rfl rfl, ?_⟩
  have h50 : goTruncInt (50 : ℚ) = 50 := by decide
  have h99 : goTruncInt (99 : ℚ) = 99 := by decide
  simp [richR0, percentileRecord, h50, h99]
  norm_num

/-- C10: marking the activator endpoints populated or removed (an
Info-severity condition outside the living set's dependents) leaves
`IsReady` unchanged and leaves every condition of any other type
unchanged. -/
theorem activator_marks_preserve_ready (conds : SSSConditions) :
    isReady (markActivatorEndpointsPopulated conds) = isReady conds
    ∧ isReady (markActivatorEndpointsRemoved conds) = isReady conds
    ∧ ∀ t, t ≠ ActivatorEndpointsPopulatedType →
        getCondition t (markActivatorEndpointsPopulated conds)
            = getCondition t conds
        ∧ getCondition t (markActivatorEndpointsRemoved conds)
            = getCondition t conds := by
  refine ⟨?_, ?_, fun t ht => ⟨?_, ?_⟩⟩
  · unfold isReady markActivatorEndpointsPopulated
    rw [getCondition_setCondition_of_ne _ conds _ (by decide)]
  · unfold isReady markActivatorEndpointsRemoved
    rw [getCondition_setCondition_of_ne _ conds _ (by decide)]
  · exact getCondition_setCondition_of_ne t conds _ ht
  · exact getCondition_setCondition_of_ne t conds _ ht

/-- C10 witness: at a status whose `Ready` and `EndpointsPopulated`
conditions are true, marking the activator endpoints populated changes
neither `IsReady` nor the `EndpointsPopulated` condition. -/
theorem activator_marks_preserve_ready_witness :
    isReady (markActivatorEndpointsPopulated readyConds) = isReady readyConds
    ∧ getCondition "EndpointsPopulated"
        (markActivatorEndpointsPopulated readyConds)
      = getCondition "EndpointsPopulated" readyConds :=
  ⟨(activator_marks_preserve_ready readyConds).1,
   ((activator_marks_preserve_ready readyConds).2.2 "EndpointsPopulated"
     (by decide)).1⟩

end Serving



